import Mathlib

/-!
Verification of the script execution sandbox in `script_runner.py`
(Unified-Server repository).

The Python module is embedded shallowly:

* `safe_import` (module level, lines 22-27) is a pure function of the module
  name and the `fromlist`; it either raises `ImportError` (modelled as
  `Except.error msg`) or delegates to the real `__import__` (modelled as
  `Except.ok ()`, since actually importing a module is outside the embedding).
* `_worker_process` (lines 137-186) runs `exec` on untrusted source text.
  Python evaluation itself cannot be embedded, so its outcome is abstracted
  by `EvalOutcome`: either top-level evaluation raised (with the message
  `str(e)`, the stdout captured so far and the traceback text), or it
  completed, having captured some stdout/stderr, with the entry-point
  lookup result described by `MainOutcome`.  From that outcome the worker
  body deterministically fills the shared `return_dict`, embedded as
  `ReturnDict` (a Python dict with optional keys, read back with `.get`).
* `ScriptExecutor.execute` (lines 192-283) is the supervisor.  What it does
  after `p.join(timeout)` depends only on whether the child is still alive
  and on the dict contents, embedded as `ChildOutcome`; wall-clock values
  (`time.time() - start_time` and the `timeout` argument) are carried as
  rationals.
* `mock_input` (lines 146-155), the sanitizer inside
  `ScriptRunner.save_script` (lines 294-316) and `CollectionManager`
  (lines 30-134) are embedded directly, state passed explicitly.
-/

namespace UnifiedServer

/-- Opaque Python values that cross the result channel (`return_dict["result"]`).
`PyValue.none` is the Python value `None`. -/
inductive PyValue where
  | none
  | int (n : Int)
  | str (s : String)
  deriving DecidableEq, Repr

/-- Deny-list from `safe_import` (script_runner.py line 24):
`blocked_modules = ["os", "sys", "subprocess", "shutil", "builtins", "pathlib", "importlib"]`. -/
def blocked_modules : List String :=
  ["os", "sys", "subprocess", "shutil", "builtins", "pathlib", "importlib"]

/-- Embedding of `safe_import(name, globals, locals, fromlist, level)`
(script_runner.py lines 22-27).  The Python guard is
`name in blocked_modules or (fromlist and any(m in blocked_modules for m in fromlist))`;
the truthiness test `fromlist and ...` is the conjunct `fromlist ≠ []`.
`Except.error msg` models raising `ImportError(msg)`; `Except.ok ()` models
delegating to the real `__import__`. -/
def safe_import (name : String) (fromlist : List String) : Except String Unit :=
  if name ∈ blocked_modules ∨ (fromlist ≠ [] ∧ ∃ m ∈ fromlist, m ∈ blocked_modules) then
    Except.error ("Import of " ++ "'" ++ name ++ "'" ++ " is not allowed for security reasons")
  else
    Except.ok ()

/-- The exact `ImportError` message text built by `safe_import` for module `name`;
it names the denied module by construction. -/
def import_error_message (name : String) : String :=
  "Import of " ++ "'" ++ name ++ "'" ++ " is not allowed for security reasons"

/-- C3: the restricted import resolver denies (raising an import error whose
message names the module) exactly when the module name is deny-listed or some
individually imported name is deny-listed, and otherwise delegates to the real
import. -/
theorem safe_import_denies_iff (name : String) (fromlist : List String) :
    (safe_import name fromlist = Except.error (import_error_message name)
      ↔ name ∈ blocked_modules ∨ ∃ m ∈ fromlist, m ∈ blocked_modules)
    ∧ (¬ (name ∈ blocked_modules ∨ ∃ m ∈ fromlist, m ∈ blocked_modules) →
        safe_import name fromlist = Except.ok ()) := by
  constructor
  · constructor
    · intro h
      by_contra hc
      rw [safe_import, if_neg] at h
      · exact Except.noConfusion h
      · rintro (hn | ⟨-, hm⟩)
        · exact hc (Or.inl hn)
        · exact hc (Or.inr hm)
    · intro h
      rw [safe_import, if_pos]
      · rfl
      · rcases h with hn | ⟨m, hm, hmb⟩
        · exact Or.inl hn
        · exact Or.inr ⟨List.ne_nil_of_mem hm, m, hm, hmb⟩
  · intro h
    rw [safe_import, if_neg]
    rintro (hn | ⟨-, hm⟩)
    · exact h (Or.inl hn)
    · exact h (Or.inr hm)

/-- Witness for `safe_import_denies_iff`: a permitted module with a permitted
fromlist delegates to the real import, and a deny-listed module is denied. -/
theorem safe_import_denies_iff_witness :
    safe_import "math" ["sqrt"] = Except.ok () ∧
    safe_import "os" [] = Except.error (import_error_message "os") :=
  ⟨(safe_import_denies_iff "math" ["sqrt"]).2 (by decide),
   (safe_import_denies_iff "os" []).1.mpr (by decide)⟩

/-- Outcome of looking up and invoking the entry point in `_worker_process`
(lines 168-172): after `exec`, either `local_scope` holds no zero-argument
callable `main`, or `main()` returns a value (having written `out`/`err` to the
captured streams during the call), or `main()` raises an exception with message
`msg` whose traceback text is `tb`. -/
inductive MainOutcome where
  | absent
  | returns (out err : String) (v : PyValue)
  | raises (out err msg tb : String)
  deriving DecidableEq, Repr

/-- Abstract outcome of `exec(code, safe_globals, local_scope)` in
`_worker_process` (line 166).  Python evaluation is outside the embedding, so
it is abstracted as: the top-level evaluation either raises an exception with
message `msg` (`str(e)`, which may be the empty string, e.g. for
`raise ValueError()`) and traceback text `tb`, having captured `out`/`err` so
far, or completes with captured `out`/`err` and entry-point outcome `m`. -/
inductive EvalOutcome where
  | ok (out err : String) (m : MainOutcome)
  | raises (out err msg tb : String)
  deriving DecidableEq, Repr

/-- The shared `return_dict` written by `_worker_process` and read by
`ScriptExecutor.execute` with `.get(key, default)`: each key is optional. -/
structure ReturnDict where
  success : Option Bool := Option.none
  stdout : Option String := Option.none
  stderr : Option String := Option.none
  result : Option PyValue := Option.none
  error : Option String := Option.none
  deriving DecidableEq, Repr

/-- Embedding of the body of `_worker_process` (lines 163-186) as a function of
the abstract evaluation outcome.  On success the worker stores the return value
of `main()` (or `None` when no entry point exists), the captured stdout and the
captured stderr; on an exception it stores `success=False`, `error=str(e)`, the
stdout captured so far, and the captured stderr followed by the traceback.
When `main()` itself raises, the assignment `return_dict["result"] = ...` has
not executed, so the `result` key stays absent. -/
def worker_process (ev : EvalOutcome) : ReturnDict :=
  match ev with
  | .ok out err m =>
    match m with
    | .absent =>
        { success := some true, stdout := some out, stderr := some err,
          result := some PyValue.none, error := Option.none }
    | .returns mo me v =>
        { success := some true, stdout := some (out ++ mo), stderr := some (err ++ me),
          result := some v, error := Option.none }
    | .raises mo me msg tb =>
        { success := some false, stdout := some (out ++ mo),
          stderr := some (err ++ me ++ tb), result := Option.none, error := some msg }
  | .raises out err msg tb =>
      { success := some false, stdout := some out, stderr := some (err ++ tb),
        result := Option.none, error := some msg }

/-- What the parent observes at `p.join(timeout)` (lines 250-254): either the
child is still alive when the timeout elapses (`p.is_alive()` true, the dict
holding whatever the child had managed to write), or the child has exited with
the dict it wrote. -/
inductive ChildOutcome where
  | alive (d : ReturnDict)
  | exited (d : ReturnDict)
  deriving DecidableEq, Repr

/-- The result record returned by `ScriptExecutor.execute` (lines 254-283). -/
structure ExecResult where
  success : Bool
  stdout : String
  stderr : String
  result : PyValue
  execution_time : ℚ
  error : Option String
  deriving DecidableEq, Repr

/-- Embedding of `ScriptExecutor.execute` after `p.join(timeout)`
(script_runner.py lines 254-283).  `timeout` is the `timeout` argument and
`elapsed` the measured `time.time() - start_time`; both are carried as
rationals (the code performs no arithmetic on them beyond the one
subtraction).  If the child is still alive it is terminated and a synthetic
timeout record is returned with `execution_time` set to the `timeout`
argument; otherwise the branch on `return_dict.get("success", False)` decides
between the failure record and the success record, both reporting the
measured `elapsed`. -/
def execute (outcome : ChildOutcome) (timeout elapsed : ℚ) : ExecResult :=
  match outcome with
  | .alive d =>
      { success := false
        stdout := d.stdout.getD ""
        stderr := d.stderr.getD "" ++ "\nTimeout exceeded"
        result := PyValue.none
        execution_time := timeout
        error := some "Timeout exceeded" }
  | .exited d =>
      if d.success.getD false = false then
        { success := false
          stdout := d.stdout.getD ""
          stderr := d.stderr.getD ""
          result := PyValue.none
          execution_time := elapsed
          error := some (d.error.getD "Unknown error") }
      else
        { success := true
          stdout := d.stdout.getD ""
          stderr := d.stderr.getD ""
          result := d.result.getD PyValue.none
          execution_time := elapsed
          error := Option.none }

/-- C1 counterexample: the module name `socket` is not in `blocked_modules`,
so `safe_import` delegates `import socket` to the real import instead of
denying it, and a run whose evaluation completes (as it does when the import
succeeds) is reported with `succeeded=true` — not `succeeded=false` with an
error naming the denied import as the claim states. -/
theorem import_socket_not_denied :
    safe_import "socket" [] = Except.ok () ∧
    (execute (.exited (worker_process (.ok "" "" .absent))) 30 1).success = true :=
  ⟨rfl, rfl⟩

/-- C1 amended: the deny-list consists exactly of `os`, `sys`, `subprocess`,
`shutil`, `builtins`, `pathlib` and `importlib`; importing any of those is
denied with an error naming the module, while network-capable modules such as
`socket`, `urllib` and `http` are not on the list and are delegated to the
real import, so network access stays reachable from the sandbox. -/
theorem denylist_blocks_exactly_listed_modules :
    safe_import "socket" [] = Except.ok () ∧
    safe_import "urllib" [] = Except.ok () ∧
    safe_import "http" [] = Except.ok () ∧
    ∀ name, name ∈ blocked_modules →
      safe_import name [] = Except.error (import_error_message name) := by
  refine ⟨rfl, rfl, rfl, ?_⟩
  intro name h
  exact (safe_import_denies_iff name []).1.mpr (Or.inl h)

/-- Witness for `denylist_blocks_exactly_listed_modules` at the deny-listed
module `os`. -/
theorem denylist_blocks_exactly_listed_modules_witness :
    safe_import "os" [] = Except.error (import_error_message "os") :=
  denylist_blocks_exactly_listed_modules.2.2.2 "os" (by decide)

/-- C2: whenever the child is still running when the timeout elapses, `execute`
returns `succeeded=false`, `errorMessage="Timeout exceeded"`, `elapsedSeconds`
equal to the configured timeout, the partial stdout already received, and a
stderr that extends the partial stderr already received (the code appends the
marker `"\nTimeout exceeded"` after it). -/
theorem timeout_result (d : ReturnDict) (t e : ℚ) :
    execute (.alive d) t e =
      { success := false
        stdout := d.stdout.getD ""
        stderr := d.stderr.getD "" ++ "\nTimeout exceeded"
        result := PyValue.none
        execution_time := t
        error := some "Timeout exceeded" } ∧
    ∃ tail, (execute (.alive d) t e).stderr = d.stderr.getD "" ++ tail :=
  ⟨rfl, "\nTimeout exceeded", rfl⟩

/-- C6 counterexample: a script whose top-level evaluation raises an exception
with an empty message (for example `raise ValueError()`, where `str(e)` is
`""`) produces a result with `succeeded=false` and `errorMessage` equal to the
empty string — a failure whose error message is not populated. -/
theorem failure_with_empty_error_message :
    (execute (.exited (worker_process
        (.raises "" "" "" "Traceback (most recent call last)"))) 30 1).success = false ∧
    (execute (.exited (worker_process
        (.raises "" "" "" "Traceback (most recent call last)"))) 30 1).error = some "" :=
  ⟨rfl, rfl⟩

/-- C6 amended: every result of `execute` has `succeeded=true` with
`errorMessage` absent, or `succeeded=false` with `errorMessage` present — but
on failure the message string, taken from `str(e)`, may be empty. -/
theorem result_success_iff_no_error (outcome : ChildOutcome) (t e : ℚ) :
    (execute outcome t e).success = true ↔ (execute outcome t e).error = Option.none := by
  cases outcome with
  | alive d => simp [execute]
  | exited d =>
    by_cases h : d.success.getD false = false <;> simp [execute, h]

/-- C7 counterexample: with a measured elapsed time of 5 seconds and a
configured timeout of 3 seconds, the timed-out result reports
`elapsedSeconds = 3` — the configured timeout, not the measured duration. -/
theorem timeout_elapsed_not_measured :
    (execute (.alive {}) 3 5).execution_time = 3 ∧ (3 : ℚ) ≠ 5 :=
  ⟨rfl, by norm_num⟩

/-- C7 amended: `elapsedSeconds` is the measured duration
`time.time() - start_time` on the Completed and CrashedWithoutResult paths
(child exited), but on the TimedOut path it is set to the configured timeout
instead of the measured duration. -/
theorem elapsed_measured_except_on_timeout (d : ReturnDict) (t e : ℚ) :
    (execute (.exited d) t e).execution_time = e ∧
    (execute (.alive d) t e).execution_time = t := by
  constructor
  · by_cases h : d.success.getD false = false <;> simp [execute, h]
  · rfl

/-- C8 counterexample: when the child exits without writing anything to the
dict, the failure result carries the generic message `"Unknown error"`, not
`"execution failed without producing a result"`. -/
theorem crashed_message_is_unknown_error :
    (execute (.exited {}) 30 1).error = some "Unknown error" ∧
    (execute (.exited {}) 30 1).error ≠ some "execution failed without producing a result" :=
  ⟨rfl, by decide⟩

/-- C8 amended: if the child exits without having written a result to the
channel (no `success` and no `error` key in the dict), `execute` returns a
failure result with the generic message `"Unknown error"` together with any
partial captured output, rather than hanging. -/
theorem crashed_without_result (d : ReturnDict) (t e : ℚ)
    (hs : d.success = Option.none) (he : d.error = Option.none) :
    execute (.exited d) t e =
      { success := false
        stdout := d.stdout.getD ""
        stderr := d.stderr.getD ""
        result := PyValue.none
        execution_time := e
        error := some "Unknown error" } := by
  simp [execute, hs, he]

/-- Witness for `crashed_without_result`: a child that vanished after writing
only partial stdout. -/
theorem crashed_without_result_witness :
    execute (.exited { stdout := some "partial" }) 30 2 =
      { success := false
        stdout := "partial"
        stderr := ""
        result := PyValue.none
        execution_time := 2
        error := some "Unknown error" } :=
  crashed_without_result { stdout := some "partial" } 30 2 rfl rfl

/-- C9: a source text defining `main()` that prints `hi` and returns 42
(evaluation outcome: top level writes nothing, `main()` writes `"hi\n"` and
returns the integer 42) yields `succeeded=true`, `stdout="hi\n"`,
`returnValue=42`; and in general the returned value is only populated
(different from `None`) on a successful run whose evaluation completed with a
returning entry point. -/
theorem main_entry_point_result :
    (∀ e : ℚ, execute (.exited (worker_process
        (.ok "" "" (.returns "hi\n" "" (.int 42))))) 30 e =
      { success := true
        stdout := "hi\n"
        stderr := ""
        result := .int 42
        execution_time := e
        error := Option.none }) ∧
    ∀ (ev : EvalOutcome) (t e : ℚ),
      (execute (.exited (worker_process ev)) t e).result ≠ PyValue.none →
      (execute (.exited (worker_process ev)) t e).success = true ∧
      ∃ out err mo me v, ev = .ok out err (.returns mo me v) := by
  constructor
  · intro e
    simp [execute, worker_process, String.empty_append]
  · intro ev t e h
    match ev with
    | .ok out err .absent => exact absurd rfl h
    | .ok out err (.returns mo me v) =>
      exact ⟨rfl, out, err, mo, me, v, rfl⟩
    | .ok out err (.raises mo me msg tb) => exact absurd rfl h
    | .raises out err msg tb => exact absurd rfl h

/-- Witness for `main_entry_point_result`: the concrete scenario has a
populated return value, so its run is successful with a returning `main`. -/
theorem main_entry_point_result_witness :
    (execute (.exited (worker_process
        (.ok "" "" (.returns "hi\n" "" (.int 42))))) 30 1).success = true :=
  (main_entry_point_result.2 (.ok "" "" (.returns "hi\n" "" (.int 42))) 30 1
    (by decide)).1

/-- State visible to `mock_input` inside `_worker_process`: the lines of
`input_str.splitlines()` not yet consumed by `input_iter`, and the contents of
`stdout_capture`. -/
structure WorkerState where
  lines : List String
  stdout : String
  deriving DecidableEq, Repr

/-- Embedding of `mock_input(prompt)` (script_runner.py lines 146-155).  The
prompt argument defaults to `None`; both `None` and `""` fail the Python
truthiness test `if prompt:`, so the absent prompt is modelled as `""`.  If the
prompt is non-empty it is printed to `stdout_capture` with `end=""` (no
trailing newline); then the next line is taken from the iterator, echoed to
`stdout_capture` by `print` (which appends a newline) and returned.  An
exhausted iterator raises `EOFError("EOF when reading a line")`, modelled as
`Option.none` — no string is returned. -/
def mock_input (prompt : String) (st : WorkerState) : Option (String × WorkerState) :=
  let st1 := if prompt ≠ "" then { st with stdout := st.stdout ++ prompt } else st
  match st1.lines with
  | [] => Option.none
  | val :: rest => some (val, { lines := rest, stdout := st1.stdout ++ val ++ "\n" })

/-- C5: while lines remain, each call of the injected read-line primitive
appends the prompt to captured stdout with no trailing newline, then appends
the next unconsumed line with a trailing newline and returns that line; once
the lines are exhausted, a further call fails with an end-of-stream error
(`EOFError`), never returning a string. -/
theorem mock_input_spec (prompt : String) (st : WorkerState) :
    (∀ l rest, st.lines = l :: rest →
      mock_input prompt st =
        some (l, { lines := rest, stdout := st.stdout ++ prompt ++ l ++ "\n" })) ∧
    (st.lines = [] → mock_input prompt st = Option.none) := by
  constructor
  · intro l rest h
    by_cases hp : prompt = ""
    · simp [mock_input, hp, h, String.append_empty]
    · simp [mock_input, hp, h, String.append_assoc]
  · intro h
    by_cases hp : prompt = "" <;> simp [mock_input, hp, h]

/-- Witness for `mock_input_spec`: a call with the prompt `"Name: "` and one
remaining line `"alice"` echoes prompt and line and returns the line; the next
call, with no lines left, fails with the end-of-stream error. -/
theorem mock_input_spec_witness :
    mock_input "Name: " { lines := ["alice"], stdout := "" } =
      some ("alice", { lines := [], stdout := "Name: alice\n" }) ∧
    mock_input "Name: " { lines := [], stdout := "Name: alice\n" } = Option.none := by
  constructor
  · have h := (mock_input_spec "Name: " { lines := ["alice"], stdout := "" }).1
      "alice" [] rfl
    simpa using h
  · exact (mock_input_spec "Name: " { lines := [], stdout := "Name: alice\n" }).2 rfl

/-- Characters kept by the sanitizer in `ScriptRunner.save_script` (line 304):
`c.isalnum() or c in ("-", "_")`. -/
def allowed_char (c : Char) : Bool := c.isAlphanum || c == '-' || c == '_'

/-- Embedding of the Python string method `strip()`: removes leading and
trailing whitespace. -/
def py_strip (l : List Char) : List Char :=
  ((l.dropWhile Char.isWhitespace).reverse.dropWhile Char.isWhitespace).reverse

/-- Embedding of line 304 of script_runner.py:
`clean_name = "".join(c for c in name if c.isalnum() or c in ("-", "_")).strip()`.
Names are carried as character lists. -/
def clean_name (name : List Char) : List Char :=
  py_strip (name.filter allowed_char)

/-- Result of `ScriptRunner.save_script`: the returned boolean and, when a
file write occurred, the path of the written file relative to the storage
base, as the pair (collection directory, filename). -/
structure SaveResult where
  saved : Bool
  written : Option (String × String)
  deriving DecidableEq, Repr

/-- Embedding of `ScriptRunner.save_script` (script_runner.py lines 294-316),
restricted to its control flow and the on-disk path it writes:
if the collection is not among the existing collections it returns `False`
before anything else; otherwise the sanitized name is computed, an empty
sanitized name is rejected (`False`, no write), and otherwise the code is
written to `base / collection / (clean_name + ".py")` and `True` is returned
(the metadata update does not touch the file path).  A host `IOError` on the
write is outside the embedding. -/
def save_script (name : List Char) (collection : String) (existing : List String) :
    SaveResult :=
  if collection ∈ existing then
    if clean_name name = [] then { saved := false, written := Option.none }
    else { saved := true, written := some (collection, (clean_name name).asString ++ ".py") }
  else { saved := false, written := Option.none }

/-- Membership in a `dropWhile` result implies membership in the input list. -/
theorem mem_of_mem_dropWhile {c : Char} {p : Char → Bool} {l : List Char}
    (h : c ∈ l.dropWhile p) : c ∈ l := by
  have hl : l.takeWhile p ++ l.dropWhile p = l := List.takeWhile_append_dropWhile p l
  rw [← hl]
  exact List.mem_append_right _ h

/-- Membership in a stripped list implies membership in the input list. -/
theorem mem_of_mem_py_strip {c : Char} {l : List Char} (h : c ∈ py_strip l) : c ∈ l := by
  rw [py_strip, List.mem_reverse] at h
  have h1 := mem_of_mem_dropWhile h
  rw [List.mem_reverse] at h1
  exact mem_of_mem_dropWhile h1

/-- C4: `save_script` derives the on-disk filename only from the characters of
the name that are alphanumeric, hyphen or underscore; a name whose sanitized
form is empty is rejected (returns `False`) with no write; and saving the name
`../../evil` to collection `Security` writes only `Security/evil.py`. -/
theorem save_script_sanitizes (name : List Char) (collection : String)
    (existing : List String) :
    (clean_name name = [] →
      save_script name collection existing = { saved := false, written := Option.none }) ∧
    (∀ c f, (save_script name collection existing).written = some (c, f) →
      c = collection ∧ f = (clean_name name).asString ++ ".py" ∧
      ∀ ch ∈ clean_name name, allowed_char ch = true) ∧
    save_script ("../../evil".toList) "Security" ["Uncategorized", "Security"] =
      { saved := true, written := some ("Security", "evil.py") } := by
  refine ⟨?_, ?_, by decide⟩
  · intro h
    by_cases hc : collection ∈ existing <;> simp [save_script, hc, h]
  · intro c f h
    by_cases hc : collection ∈ existing
    · by_cases hn : clean_name name = []
      · simp [save_script, hc, hn] at h
      · simp [save_script, hc, hn] at h
        refine ⟨h.1.symm, h.2.symm, ?_⟩
        intro ch hch
        have := mem_of_mem_py_strip (l := name.filter allowed_char) hch
        exact (List.mem_filter.mp this).2
    · simp [save_script, hc] at h

/-- Witness for `save_script_sanitizes`: the name `../..` sanitizes to the
empty string and is rejected, and the path written for `../../evil` stays
inside the `Security` collection directory. -/
theorem save_script_sanitizes_witness :
    save_script ("../..".toList) "Security" ["Uncategorized", "Security"] =
      { saved := false, written := Option.none } ∧
    "evil.py" = (clean_name ("../../evil".toList)).asString ++ ".py" :=
  ⟨(save_script_sanitizes ("../..".toList) "Security" ["Uncategorized", "Security"]).1
      (by decide),
   ((save_script_sanitizes ("../../evil".toList) "Security"
      ["Uncategorized", "Security"]).2.1 "Security" "evil.py" (by decide)).2.1⟩

/-- State of a `CollectionManager`: the `collections` mapping of the metadata
file (a Python dict, embedded as an ordered association list from collection
name to the names of its scripts; script metadata beyond the name plays no
role in the collection-level operations) and the set of collection
directories on disk. -/
structure CMState where
  collections : List (String × List String)
  dirs : List String
  deriving DecidableEq, Repr

/-- Embedding of `CollectionManager.list_collections` (lines 103-106):
the keys of the `collections` dict. -/
def list_collections (st : CMState) : List String :=
  st.collections.map Prod.fst

/-- State established by `CollectionManager._ensure_base_structure`
(lines 38-52): the metadata holds the single collection `Uncategorized` with
no scripts, and its directory exists. -/
def initial_state : CMState :=
  { collections := [("Uncategorized", [])], dirs := ["Uncategorized"] }

/-- Embedding of `CollectionManager.create_collection` (lines 67-82): returns
`False` if the name already exists, otherwise adds the key (Python dict
insertion appends at the end), creates the directory and returns `True`. -/
def create_collection (name : String) (st : CMState) : Bool × CMState :=
  if name ∈ list_collections st then (false, st)
  else (true, { collections := st.collections ++ [(name, [])],
                dirs := st.dirs ++ [name] })

/-- Embedding of `CollectionManager.delete_collection` (lines 84-101): the
name `Uncategorized` is refused immediately; an unknown name returns `False`;
otherwise the key is deleted, the metadata saved, and the directory removed. -/
def delete_collection (name : String) (st : CMState) : Bool × CMState :=
  if name = "Uncategorized" then (false, st)
  else if name ∈ list_collections st then
    (true, { collections := st.collections.filter (fun p => p.1 != name),
             dirs := st.dirs.filter (fun d => d != name) })
  else (false, st)

/-- Embedding of `CollectionManager.add_script_to_collection` (lines 113-125):
an unknown collection leaves the state unchanged; otherwise the script list of
that collection drops any entry with the same name and appends the new one. -/
def add_script_to_collection (collection script : String) (st : CMState) : CMState :=
  if collection ∈ list_collections st then
    { st with collections := st.collections.map (fun p =>
        if p.1 = collection then (p.1, p.2.filter (fun s => s != script) ++ [script])
        else p) }
  else st

/-- Embedding of `CollectionManager.remove_script_from_collection`
(lines 127-134). -/
def remove_script_from_collection (collection script : String) (st : CMState) : CMState :=
  if collection ∈ list_collections st then
    { st with collections := st.collections.map (fun p =>
        if p.1 = collection then (p.1, p.2.filter (fun s => s != script)) else p) }
  else st

/-- The collection-level operations a caller can issue against one
`CollectionManager`. -/
inductive CMOp where
  | create (name : String)
  | delete (name : String)
  | addScript (collection script : String)
  | removeScript (collection script : String)
  deriving DecidableEq, Repr

/-- Applies one operation to the state (the returned booleans are dropped). -/
def apply_op (st : CMState) (op : CMOp) : CMState :=
  match op with
  | .create n => (create_collection n st).2
  | .delete n => (delete_collection n st).2
  | .addScript c s => add_script_to_collection c s st
  | .removeScript c s => remove_script_from_collection c s st

/-- Applies a sequence of operations from left to right. -/
def apply_ops (ops : List CMOp) (st : CMState) : CMState :=
  ops.foldl apply_op st

/-- Every single operation preserves the presence of `Uncategorized` among the
collection keys. -/
theorem apply_op_preserves_uncategorized (st : CMState) (op : CMOp)
    (h : "Uncategorized" ∈ list_collections st) :
    "Uncategorized" ∈ list_collections (apply_op st op) := by
  rcases op with n | n | ⟨c, s⟩ | ⟨c, s⟩
  · by_cases hn : n ∈ list_collections st
    · simpa [apply_op, create_collection, hn] using h
    · simp only [apply_op, create_collection, hn, if_neg, if_false]
      simp only [list_collections, List.map_append, List.mem_append]
      exact Or.inl h
  · by_cases hu : n = "Uncategorized"
    · simpa [apply_op, delete_collection, hu] using h
    · by_cases hn : n ∈ list_collections st
      · simp only [apply_op, delete_collection, hu, if_neg, hn, if_true, if_false]
        simp only [list_collections, List.mem_map] at h ⊢
        rcases h with ⟨p, hp, hfst⟩
        refine ⟨p, List.mem_filter.mpr ⟨hp, ?_⟩, hfst⟩
        simp only [bne_iff_ne, ne_eq, hfst]
        exact fun hc => hu hc.symm
      · simpa [apply_op, delete_collection, hu, hn] using h
  · by_cases hc : c ∈ list_collections st
    · simp only [apply_op, add_script_to_collection, hc, if_true]
      simp only [list_collections] at h ⊢
      have hk : (st.collections.map (fun p =>
          if p.1 = c then (p.1, p.2.filter (fun s2 => s2 != s) ++ [s]) else p)).map Prod.fst
          = st.collections.map Prod.fst := by
        rw [List.map_map]
        apply List.map_congr_left
        intro p hp
        by_cases hpc : p.1 = c <;> simp [hpc, Function.comp]
      rw [hk]
      exact h
    · simpa [apply_op, add_script_to_collection, hc] using h
  · by_cases hc : c ∈ list_collections st
    · simp only [apply_op, remove_script_from_collection, hc, if_true]
      simp only [list_collections] at h ⊢
      have hk : (st.collections.map (fun p =>
          if p.1 = c then (p.1, p.2.filter (fun s2 => s2 != s)) else p)).map Prod.fst
          = st.collections.map Prod.fst := by
        rw [List.map_map]
        apply List.map_congr_left
        intro p hp
        by_cases hpc : p.1 = c <;> simp [hpc, Function.comp]
      rw [hk]
      exact h
    · simpa [apply_op, remove_script_from_collection, hc] using h

/-- The invariant extends to arbitrary operation sequences. -/
theorem apply_ops_preserves_uncategorized (ops : List CMOp) (st : CMState)
    (h : "Uncategorized" ∈ list_collections st) :
    "Uncategorized" ∈ list_collections (apply_ops ops st) := by
  induction ops generalizing st with
  | nil => exact h
  | cons op rest ih =>
    exact ih (apply_op st op) (apply_op_preserves_uncategorized st op h)

/-- C10: deleting the default collection `Uncategorized` always returns
`False` and leaves the metadata and the directories unchanged, and after every
sequence of collection operations starting from the freshly initialized state,
`Uncategorized` is still present in `list_collections`. -/
theorem uncategorized_never_deleted :
    (∀ st : CMState, delete_collection "Uncategorized" st = (false, st)) ∧
    ∀ ops : List CMOp, "Uncategorized" ∈ list_collections (apply_ops ops initial_state) := by
  constructor
  · intro st
    simp [delete_collection]
  · intro ops
    exact apply_ops_preserves_uncategorized ops initial_state (by decide)

end UnifiedServer
